import Mathlib

/-!
Verification of the request-execution and credential-management core of the
`@gradientedge/akeneo-utils` client library, shallowly embedded in Lean 4.

The embedding follows the TypeScript source:
  * `AkeneoApi.request`, `AkeneoApi.isRetryableError`, `AkeneoApi.transformError`,
    `AkeneoApi.getRetryConfig`, `AkeneoApi.getRequestOptions`,
    `AkeneoApi.appendRemainingPages` and `RETRYABLE_STATUS_CODES`
    from `src/lib/api/AkeneoApi.ts`;
  * `AkeneoAuth.getClientGrant` from `src/lib/auth/AkeneoAuth.ts`, embedded as a
    small-step simulator of the JavaScript microtask semantics, since the claims
    about it concern the interleaving of concurrent async calls;
  * `AkeneoError.fromAxiosError` from `src/lib/error/AkeneoError.ts` (restricted
    to the message/status fields that the claims mention).

JavaScript values that the code only inspects structurally (axios errors,
headers objects) are embedded as structures carrying exactly the fields the
code reads, with truthiness of an optional field modelled as `Option`/`Bool`.
-/

/-! ## Error values and classification (`AkeneoApi.ts`) -/

/-- Shape of an HTTP response attached to an axios error, restricted to the
fields the library reads: the status code, and the `Retry-After` header
(which the source never reads, but which claim C2 is about). -/
structure RespInfo where
  status : Nat
  retryAfter : Option String := none
deriving DecidableEq, Repr

/-- Embedding of an arbitrary JavaScript error value as seen by
`isRetryableError` / `transformError`: the code only inspects the truthiness of
`error.isAxiosError`, `error.request` and `error.response`, the response status,
and the message. -/
structure ErrVal where
  isAxiosError : Bool
  hasRequest : Bool := false
  response : Option RespInfo := none
  message : String := ""
deriving DecidableEq, Repr

/-- List of status codes which are allowed to retry (`RETRYABLE_STATUS_CODES`
in `AkeneoApi.ts`: InternalServerError, NotImplemented, BadGateway,
ServiceUnavailable, GatewayTimeout). -/
def RETRYABLE_STATUS_CODES : List Nat := [500, 501, 502, 503, 504]

/-- Embedding of `AkeneoApi.isRetryableError`:
a non-axios error is retryable; an axios error missing the `request` or the
`response` property is retryable; otherwise retryable iff the response status
is in `RETRYABLE_STATUS_CODES`. -/
def isRetryableError (error : ErrVal) : Bool :=
  if error.isAxiosError = false then
    true
  else
    match error.hasRequest, error.response with
    | false, _ => true
    | _, none => true
    | true, some r => decide (r.status ∈ RETRYABLE_STATUS_CODES)

/-- Embedding of `AkeneoError` (fields used by the claims: `message` and
`status`; the class also carries a masked diagnostic payload and the constant
`isAkeneoError = true`, which no claim in scope depends on). -/
structure AkeneoError where
  message : String
  status : Option Nat := none
deriving DecidableEq, Repr

/-- Embedding of `AkeneoError.fromAxiosError`: the message is copied and the
status is taken from the response when one was received. -/
def AkeneoError.fromAxiosError (e : ErrVal) : AkeneoError :=
  { message := e.message, status := e.response.map (fun r => r.status) }

/-- A value thrown out of `AkeneoApi.request`: either a constructed
`AkeneoError`, or the original raw value (when it was not axios-shaped). -/
inductive Thrown where
  | akeneo : AkeneoError → Thrown
  | raw : ErrVal → Thrown
deriving DecidableEq, Repr

/-- Embedding of `AkeneoApi.transformError`: an axios-shaped error is converted
via `AkeneoError.fromAxiosError`; any other value is returned unchanged. -/
def transformError (lastError : ErrVal) : Thrown :=
  if lastError.isAxiosError then .akeneo (.fromAxiosError lastError) else .raw lastError

/-! ## Retry configuration and backoff (`AkeneoApi.ts`, `utils`) -/

/-- Embedding of `AkeneoRetryConfig` from `src/lib/api/types.ts`. -/
structure RetryConfig where
  delayMs : Nat
  maxRetries : Nat
  max429Retries : Option Nat := none
  jitter : Bool := false
deriving DecidableEq, Repr

/-- Default retry configuration (`DEFAULT_RETRY_CONFIG` in `AkeneoApi.ts`):
equates to no retrying at all. -/
def DEFAULT_RETRY_CONFIG : RetryConfig := { maxRetries := 0, delayMs := 0 }

/-- Embedding of `AkeneoApi.getRetryConfig` composed with the constructor
defaulting `this.retry = config.retry || DEFAULT_RETRY_CONFIG`: the
method-level config wins when present, else the instance-level one, else the
default. -/
def getRetryConfig (instanceRetry : Option RetryConfig)
    (methodRetryConfig : Option RetryConfig) : RetryConfig :=
  methodRetryConfig.getD (instanceRetry.getD DEFAULT_RETRY_CONFIG)

/-- Modelled from the spec: the source imports `calculateDelay` from
`src/lib/utils`, a file that is not included under `src/`; per spec section 4.3
the delay for retry attempt n (1-indexed) is `baseDelayMs * 2^(n-1)`, with the
optional jitter disabled (jitter only randomizes within the stated bound and no
claim in scope depends on it). -/
def calculateDelay (retryCount : Nat) (cfg : RetryConfig) : Nat :=
  cfg.delayMs * 2 ^ (retryCount - 1)

/-! ## Request headers (`AkeneoApi.getRequestOptions`) -/

/-- The bearer-style authorization header value built by
`AkeneoApi.getRequestOptions` from the current grant. -/
def mkAuthHeader (token : String) : String :=
  "Bearer " ++ token

/-- JavaScript object-spread semantics on string-keyed records, viewed as
association lists: keys of `overlay` override keys of `base`. -/
def spreadObj (base overlay : List (String × String)) : List (String × String) :=
  base.filter (fun kv => (overlay.lookup kv.1).isNone) ++ overlay

/-- Embedding of the headers object built by `AkeneoApi.getRequestOptions`:
the axios instance default headers, then the `Authorization` bearer header,
then the caller-supplied headers, merged with object-spread semantics in that
order. -/
def getRequestOptionsHeaders (defaultHeaders : List (String × String))
    (token : String) (callerHeaders : List (String × String)) :
    List (String × String) :=
  spreadObj (spreadObj defaultHeaders [("Authorization", mkAuthHeader token)]) callerHeaders

/-! ## The retry loop (`AkeneoApi.request`)

The transport (axios call) is embedded as an oracle mapping the attempt index
(the `retryCount` of the source) to the outcome of that attempt, and the token cache as
an oracle mapping the fetch index to the token it returns. The run records,
per attempt, the authorization header it was sent with (the source computes
`requestConfig` once, before the loop) and the delay awaited before it. -/

/-- Record of one transport attempt made by the retry loop. -/
structure AttemptRecord where
  authHeader : Option String
  delayBefore : Option Nat
deriving DecidableEq, Repr

/-- Result of one full `AkeneoApi.request` run: the returned data or the
thrown value, and the per-attempt records in order. -/
structure RunResult where
  value : Except Thrown String
  attempts : List AttemptRecord
deriving Repr

/-- Embedding of the do-while body of `AkeneoApi.request`. `retryCount` is the
loop counter of the source (0 on the first attempt); `remaining` is the number of
further iterations the `retryCount <= maxRetries` guard still permits, i.e.
`maxRetries - retryCount`. When `retryCount > 0` the loop first awaits
`calculateDelay retryCount cfg`. A successful attempt returns the data; a
failed attempt either continues (retryable, budget remaining), or throws the
transformed current error (non-retryable, including via the final
`throw this.transformError(lastError)` when the budget is exhausted, at which
point `lastError` is the error of the attempt just made). -/
def requestFrom (transport : Nat → Except ErrVal String) (cfg : RetryConfig)
    (authHeader : Option String) (retryCount : Nat) (remaining : Nat) : RunResult :=
  let delayBefore : Option Nat :=
    if 0 < retryCount then some (calculateDelay retryCount cfg) else none
  let att : AttemptRecord := { authHeader := authHeader, delayBefore := delayBefore }
  match transport retryCount with
  | .ok data => { value := .ok data, attempts := [att] }
  | .error e =>
    if isRetryableError e then
      match remaining with
      | 0 => { value := .error (transformError e), attempts := [att] }
      | r + 1 =>
        let rest := requestFrom transport cfg authHeader (retryCount + 1) r
        { value := rest.value, attempts := att :: rest.attempts }
    else
      { value := .error (transformError e), attempts := [att] }

/-- Embedding of `AkeneoApi.request`: the request options (with the
authorization header from the single `getClientGrant` call) are computed once
before the loop, the effective retry config is resolved, and the do-while loop
runs starting at `retryCount = 0` with `maxRetries` further iterations
permitted. -/
def request (getToken : Nat → String) (transport : Nat → Except ErrVal String)
    (instanceRetry : Option RetryConfig) (methodRetry : Option RetryConfig) : RunResult :=
  let requestConfigAuth := mkAuthHeader (getToken 0)
  let retryConfig := getRetryConfig instanceRetry methodRetry
  requestFrom transport retryConfig (some requestConfigAuth) 0 retryConfig.maxRetries

/-! ## Pagination (`AkeneoApi.appendRemainingPages`)

The hypermedia envelope `Results` from `src/lib/types.ts` is embedded with
`links` standing for the `_links` field of the source and `embedded` for
`_embedded`. `followLink` (a plain authenticated GET against the link URL) is
embedded as an oracle from the URL to the fetched page; the while loop is run
with explicit fuel, returning `none` only when the fuel is exhausted before
the chain ends. -/

/-- A hypermedia link (the `href`-carrying objects inside `_links`). -/
structure PageLink where
  href : String
deriving DecidableEq, Repr

/-- The `_links` object of a `Results` envelope. -/
structure PageLinks where
  self : Option PageLink := none
  first : Option PageLink := none
  previous : Option PageLink := none
  next : Option PageLink := none
deriving DecidableEq, Repr

/-- The `_embedded` object of a `Results` envelope. -/
structure Embedded (α : Type) where
  items : List α
deriving DecidableEq, Repr

/-- The generic results container (`Results<T>` from `src/lib/types.ts`);
`links` embeds `_links` and `embedded` embeds `_embedded`. -/
structure Results (α : Type) where
  links : PageLinks
  current_page : Option Nat := none
  items_count : Option Nat := none
  embedded : Embedded α
deriving DecidableEq, Repr

/-- Embedding of the while loop of `AkeneoApi.appendRemainingPages`: while
`nextHref` is present, fetch it, append the items of the fetched page to the
items of the accumulated response, and take the next href from the fetched page.
After the loop, `response._links` is replaced by an object holding only the
`first` link of the accumulated response. -/
def appendLoop (follow : String → Results α) :
    Nat → Results α → Option String → Option (Results α)
  | _, resp, none =>
    some { resp with links := { first := resp.links.first } }
  | 0, _, some _ => none
  | fuel + 1, resp, some href =>
    let nextResponse := follow href
    appendLoop follow fuel
      { resp with embedded := { items := resp.embedded.items ++ nextResponse.embedded.items } }
      (nextResponse.links.next.map (fun l => l.href))

/-- Embedding of `AkeneoApi.appendRemainingPages`: the initial `nextHref` is
read from the `_links.next` of the passed-in response. -/
def appendRemainingPages (follow : String → Results α) (fuel : Nat)
    (resp : Results α) : Option (Results α) :=
  appendLoop follow fuel resp (resp.links.next.map (fun l => l.href))

/-- The finite chain of pages reachable from `cur` by following `next` links
through `follow`: `pages` lists, in order, exactly the pages the loop will
fetch, and the last of them (or `cur` itself when `pages` is empty) has no
`next` link. -/
def isChain [DecidableEq α] (follow : String → Results α) :
    Results α → List (Results α) → Bool
  | cur, [] => cur.links.next.isNone
  | cur, p :: rest =>
    match cur.links.next with
    | none => false
    | some l => if follow l.href = p then isChain follow p rest else false

/-! ## The token cache (`AkeneoAuth.getClientGrant`)

The claims C1 and C4 are about the interleaving of concurrent
`getClientGrant()` calls, so the method is embedded as a small-step simulator
of the JavaScript microtask semantics. Each call is a task that proceeds
through the suspension points of the method body:

  line 84  `await this.grantPromise`          -> `TaskPhase.awaitInitial p`
  line 91  `await this.grantPromise` (the
           exchange promise created line 90)  -> `TaskPhase.awaitExchange p`

Promises are numbered; promise 0 is the initial `Promise.resolve()` stored in
the `grantPromise` field (its resolution value is discarded by the `await` on
line 84, so it is given a dummy value). Awaiting an already-settled promise
enqueues the continuation on the microtask queue; awaiting a pending promise
registers it with the promise, and settling a promise enqueues its registered
continuations in registration order, matching the JavaScript event loop. -/

/-- The object structure received from akeneo for a new grant
(`AkeneoGrantResponse` from `src/lib/auth/types.ts`). -/
structure GrantResponse where
  access_token : String
  refresh_token : Option String := none
  expires_in : Nat
deriving DecidableEq, Repr

/-- Modelled from the spec: the `AkeneoGrant` class file is not under `src/`
(only its tests are). Per spec section 3, a Credential holds the access token,
the optional refresh token and an `expiresAt` derived as issue time plus
`expiresIn`; the class tests show `expiresAt = now + expires_in` (in ms) and a
blank refresh token left unset. -/
structure AkeneoGrant where
  accessToken : String
  refreshToken : Option String
  expiresIn : Nat
  expiresAt : Nat
deriving DecidableEq, Repr

/-- Modelled from the spec: construction of an `AkeneoGrant` from a grant
response at wall-clock time `now` (milliseconds). -/
def AkeneoGrant.ofResponse (resp : GrantResponse) (now : Nat) : AkeneoGrant :=
  { accessToken := resp.access_token
    refreshToken :=
      match resp.refresh_token with
      | some t => if t = "" then none else some t
      | none => none
    expiresIn := resp.expires_in
    expiresAt := now + resp.expires_in * 1000 }

/-- Modelled from the spec: `AkeneoGrant.expiresWithin` (class file not under
`src/`); per spec section 4.1 a grant triggers a refresh when it expires
within the lookahead window of `secs` seconds from now. -/
def AkeneoGrant.expiresWithin (g : AkeneoGrant) (secs : Nat) (now : Nat) : Bool :=
  g.expiresAt ≤ now + secs * 1000

/-- Outcome of the promise of one credential exchange
(`AkeneoAuthApi.getClientGrant`): a grant response, or a rejection carrying an
abstract error value (represented by a label). -/
inductive ExchangeResult where
  | ok (resp : GrantResponse)
  | err (e : String)
deriving DecidableEq, Repr

/-- Outcome of one `getClientGrant()` call as observed by its caller. -/
inductive GrantOutcome where
  | ok (g : AkeneoGrant)
  | err (e : String)
deriving DecidableEq, Repr

/-- The continuation state of one in-flight `getClientGrant()` call. -/
inductive TaskPhase where
  | awaitInitial (p : Nat)
  | awaitExchange (p : Nat)
  | done (r : GrantOutcome)
deriving DecidableEq, Repr

/-- State of one `AkeneoAuth` instance together with the JavaScript promise
and microtask machinery its method interacts with. `grant` and `grantPromise`
are the two fields of the class; `promStates` maps each promise id to its
settled outcome (`none` while pending); `waiters` holds, per promise, the
tasks registered on it while it was pending; `queue` is the microtask queue;
`exchangeCount` counts the invocations of `api.getClientGrant()` (line 90). -/
structure AuthSim where
  grant : Option AkeneoGrant
  grantPromise : Nat
  promStates : List (Option ExchangeResult)
  waiters : List (List Nat)
  tasks : List TaskPhase
  queue : List Nat
  exchangeCount : Nat
  now : Nat
  refreshIfWithinSecs : Nat
deriving DecidableEq, Repr

/-- Initial state of a freshly-constructed `AkeneoAuth`: no grant, and
`grantPromise = Promise.resolve()` (promise 0, already settled; its value is
never consumed because line 84 discards the awaited value). -/
def initAuthSim (refreshIfWithinSecs now : Nat) : AuthSim :=
  { grant := none
    grantPromise := 0
    promStates := [some (.ok { access_token := "", expires_in := 0 })]
    waiters := [[]]
    tasks := []
    queue := []
    exchangeCount := 0
    now := now
    refreshIfWithinSecs := refreshIfWithinSecs }

/-- Register task `tid` as awaiting promise `p`: if `p` is already settled the
continuation goes straight onto the microtask queue, otherwise it is recorded
with the promise. -/
def attachTask (s : AuthSim) (tid p : Nat) : AuthSim :=
  match s.promStates.getD p none with
  | some _ => { s with queue := s.queue ++ [tid] }
  | none => { s with waiters := s.waiters.set p ((s.waiters.getD p []) ++ [tid]) }

/-- The synchronous leading portion of a `getClientGrant()` invocation: a new task is
created and suspends at line 84 on the current value of `this.grantPromise`. -/
def startCall (s : AuthSim) : AuthSim :=
  let tid := s.tasks.length
  let p := s.grantPromise
  attachTask { s with tasks := s.tasks ++ [.awaitInitial p] } tid p

/-- Lines 90-93 of `AkeneoAuth.getClientGrant` as executed by task `tid`:
`this.grantPromise = this.api.getClientGrant()` creates a fresh pending
promise and stores it in the field, and the task suspends on it at line 91. -/
def startExchange (s : AuthSim) (tid : Nat) : AuthSim :=
  let pid := s.promStates.length
  { s with
    promStates := s.promStates ++ [none]
    waiters := s.waiters ++ [[tid]]
    grantPromise := pid
    exchangeCount := s.exchangeCount + 1
    tasks := s.tasks.set tid (.awaitExchange pid) }

/-- Resume task `tid` from its suspension point, following the method body:
resuming from line 84 with a rejected promise rethrows to the caller; with a
fulfilled one, the cached grant is returned if present and not expiring within
the lookahead window (lines 86-88), otherwise an exchange is started (lines
90-91). Resuming from line 91 stores the new grant and returns it on success,
or rethrows on rejection (leaving `this.grant` untouched). -/
def stepTask (s : AuthSim) (tid : Nat) : AuthSim :=
  match s.tasks.getD tid (.done (.err "missing-task")) with
  | .awaitInitial p =>
    match s.promStates.getD p none with
    | none => s
    | some (.err e) => { s with tasks := s.tasks.set tid (.done (.err e)) }
    | some (.ok _) =>
      match s.grant with
      | some g =>
        if g.expiresWithin s.refreshIfWithinSecs s.now = false then
          { s with tasks := s.tasks.set tid (.done (.ok g)) }
        else
          startExchange s tid
      | none => startExchange s tid
  | .awaitExchange p =>
    match s.promStates.getD p none with
    | none => s
    | some (.err e) => { s with tasks := s.tasks.set tid (.done (.err e)) }
    | some (.ok resp) =>
      let g := AkeneoGrant.ofResponse resp s.now
      { s with grant := some g, tasks := s.tasks.set tid (.done (.ok g)) }
  | .done _ => s

/-- Run the microtask queue to quiescence (bounded by fuel; every task resumes
at most twice, so any fuel beyond twice the task count is enough). -/
def drainQueue : Nat → AuthSim → AuthSim
  | 0, s => s
  | fuel + 1, s =>
    match s.queue with
    | [] => s
    | tid :: rest => drainQueue fuel (stepTask { s with queue := rest } tid)

/-- Settle promise `p` with result `r`, releasing its registered waiters onto
the microtask queue in registration order. -/
def settleProm (s : AuthSim) (p : Nat) (r : ExchangeResult) : AuthSim :=
  { s with
    promStates := s.promStates.set p (some r)
    queue := s.queue ++ s.waiters.getD p []
    waiters := s.waiters.set p [] }

/-- External events driving the simulator: a `getClientGrant()` invocation
(synchronous part only), the end of a synchronous tick (microtasks run), and
the network settling the exchange promise with id `p`. -/
inductive AuthEv where
  | call
  | drainTick
  | resolveExchange (p : Nat) (r : ExchangeResult)
deriving Repr

/-- Apply one event. Settling an exchange promise is followed by a microtask
drain, as the event loop runs all microtasks after the network callback. -/
def runEv (s : AuthSim) : AuthEv → AuthSim
  | .call => startCall s
  | .drainTick => drainQueue 1000 s
  | .resolveExchange p r => drainQueue 1000 (settleProm s p r)

/-- Run a list of events from a state. -/
def runScript (evs : List AuthEv) (s : AuthSim) : AuthSim :=
  evs.foldl runEv s

/-! ## Concrete fixtures used by witnesses and counterexamples -/

/-- An axios-shaped 500 error (request sent, response received). -/
def err500 : ErrVal :=
  { isAxiosError := true, hasRequest := true, response := some { status := 500 },
    message := "Request failed with status code 500" }

/-- An axios-shaped 429 error carrying a parseable Retry-After header of 2 seconds. -/
def err429 : ErrVal :=
  { isAxiosError := true, hasRequest := true,
    response := some { status := 429, retryAfter := some "2" },
    message := "Request failed with status code 429" }

/-- An axios-shaped 400 error (request sent, response received). -/
def err400 : ErrVal :=
  { isAxiosError := true, hasRequest := true, response := some { status := 400 },
    message := "Request failed with status code 400" }

/-- A value without the axios-error marker. -/
def errPlain : ErrVal :=
  { isAxiosError := false, message := "not-axios" }

/-- Retry config used by the 429 tests of the repository: no plain retries, four
429-retries. -/
def cfg429Ex : RetryConfig := { delayMs := 300, maxRetries := 0, max429Retries := some 4 }

/-- Retry config with one plain retry. -/
def cfgOneRetry : RetryConfig := { delayMs := 300, maxRetries := 1 }

/-- Retry config with two plain retries. -/
def cfgTwoRetries : RetryConfig := { delayMs := 300, maxRetries := 2 }

/-- Token oracle whose token changes after the first fetch (the cache refreshed
between the first and second attempt). -/
def tokenSeq : Nat → String := fun n => if n = 0 then "a" else "b"

/-- Transport failing with a 500 on the first attempt, then succeeding. -/
def transport500Once : Nat → Except ErrVal String :=
  fun n => if n = 0 then .error err500 else .ok "ok"

/-- Transport failing every attempt with a 500. -/
def transportAlways500 : Nat → Except ErrVal String := fun _ => .error err500

/-- Transport failing every attempt with a 429. -/
def transportAlways429 : Nat → Except ErrVal String := fun _ => .error err429

/-- Transport failing every attempt with a 400. -/
def transportAlways400 : Nat → Except ErrVal String := fun _ => .error err400

/-- Transport failing every attempt with a non-axios value. -/
def transportAlwaysPlain : Nat → Except ErrVal String := fun _ => .error errPlain

/-- First page of a three-page chain (items 1, 2). -/
def page1 : Results Nat :=
  { links := { self := some { href := "u1" }, first := some { href := "F" },
               next := some { href := "u2" } }
    current_page := some 1
    items_count := some 6
    embedded := { items := [1, 2] } }

/-- Second page of the chain (items 3, 4). -/
def page2 : Results Nat :=
  { links := { self := some { href := "u2" }, first := some { href := "F" },
               previous := some { href := "u1" }, next := some { href := "u3" } }
    current_page := some 2
    items_count := some 6
    embedded := { items := [3, 4] } }

/-- Last page of the chain (items 5, 6; no next link). -/
def page3 : Results Nat :=
  { links := { self := some { href := "u3" }, first := some { href := "F" },
               previous := some { href := "u2" } }
    current_page := some 3
    items_count := some 6
    embedded := { items := [5, 6] } }

/-- Link-following oracle serving the three-page chain. -/
def followEx : String → Results Nat :=
  fun h => if h = "u2" then page2 else if h = "u3" then page3 else page1

/-- Two `getClientGrant()` calls issued in the same synchronous tick (e.g. from
one loop body), before any microtask has run, then both exchange promises
settling successfully with distinct tokens. -/
def c1Script : List AuthEv :=
  [.call, .call, .drainTick,
   .resolveExchange 1 (.ok { access_token := "tokenA", expires_in := 3600 }),
   .resolveExchange 2 (.ok { access_token := "tokenB", expires_in := 3600 })]

/-- The grant the first same-tick caller receives. -/
def grantA : AkeneoGrant :=
  { accessToken := "tokenA", refreshToken := none, expiresIn := 3600, expiresAt := 3600000 }

/-- The grant the second same-tick caller receives. -/
def grantB : AkeneoGrant :=
  { accessToken := "tokenB", refreshToken := none, expiresIn := 3600, expiresAt := 3600000 }

/-- Claim C4 scenario: a first call obtains a grant that (having
`expires_in = 0`) lies inside the refresh lookahead window; a second call
starts a refresh; a third call arrives while that refresh is in flight; the
refresh fails; a fourth call arrives afterwards. -/
def c4Script : List AuthEv :=
  [.call, .drainTick,
   .resolveExchange 1 (.ok { access_token := "tok0", expires_in := 0 }),
   .call, .drainTick,
   .call, .drainTick,
   .resolveExchange 2 (.err "exchange-failed"),
   .call, .drainTick]

/-- The cached grant held before the failing refresh of the C4 scenario. -/
def grant0 : AkeneoGrant :=
  { accessToken := "tok0", refreshToken := none, expiresIn := 0, expiresAt := 0 }

/-! ## Helper lemmas: pagination -/

/-- Running the `appendRemainingPages` loop from accumulator `resp`, with the
next-link chain starting at `cur` fetching exactly the pages in `pages`,
terminates within any fuel of at least `pages.length` and produces the
accumulator with all fetched items appended, the links collapsed to the
`first` link of the accumulator, and every other field untouched. -/
theorem appendLoop_chain_spec [DecidableEq α] (follow : String → Results α) :
    ∀ (pages : List (Results α)) (cur resp : Results α) (fuel : Nat),
      isChain follow cur pages = true →
      pages.length ≤ fuel →
      appendLoop follow fuel resp (cur.links.next.map (fun l => l.href)) =
        some { links := { self := none, first := resp.links.first,
                          previous := none, next := none }
               current_page := resp.current_page
               items_count := resp.items_count
               embedded := { items := resp.embedded.items ++
                   (pages.map (fun p => p.embedded.items)).flatten } } := by
  intro pages
  induction pages with
  | nil =>
    intro cur resp fuel hchain _
    have hnone : cur.links.next = none := by
      simpa [isChain, Option.isNone_iff_eq_none] using hchain
    simp [hnone, appendLoop]
  | cons p rest ih =>
    intro cur resp fuel hchain hfuel
    obtain ⟨l, hl⟩ : ∃ l, cur.links.next = some l := by
      cases h : cur.links.next with
      | none => simp [isChain, h] at hchain
      | some l => exact ⟨l, rfl⟩
    have hfollow : follow l.href = p := by
      by_cases hf : follow l.href = p
      · exact hf
      · simp [isChain, hl, hf] at hchain
    have hrest : isChain follow p rest = true := by
      simpa [isChain, hl, hfollow] using hchain
    obtain ⟨f, rfl⟩ : ∃ f, fuel = f + 1 := by
      cases fuel with
      | zero => simp at hfuel
      | succ f => exact ⟨f, rfl⟩
    have hf : rest.length ≤ f := by simp at hfuel; omega
    have := ih p { resp with embedded :=
      { items := resp.embedded.items ++ p.embedded.items } } f hrest hf
    simp [hl, appendLoop, hfollow, this]

/-- C7: for every initial paged result followed by a finite chain of pages
linked via `_links.next` (and any fuel covering the chain), draining via
`appendRemainingPages` produces one result whose `_embedded.items` is the
concatenation of the item lists of all pages in page order and whose final `_links`
contains only the `first` link. -/
theorem c7_drain_concatenates_pages_and_collapses_links [DecidableEq α]
    (follow : String → Results α) (resp : Results α) (pages : List (Results α))
    (fuel : Nat) (hchain : isChain follow resp pages = true)
    (hfuel : pages.length ≤ fuel) :
    appendRemainingPages follow fuel resp =
      some { links := { self := none, first := resp.links.first,
                        previous := none, next := none }
             current_page := resp.current_page
             items_count := resp.items_count
             embedded := { items := resp.embedded.items ++
                 (pages.map (fun p => p.embedded.items)).flatten } } :=
  appendLoop_chain_spec follow pages resp resp fuel hchain hfuel

/-- Witness for C7 at a concrete three-page chain. -/
theorem c7_witness :
    isChain followEx page1 [page2, page3] = true ∧
    ([page2, page3].length ≤ 2) ∧
    appendRemainingPages followEx 2 page1 =
      some { links := { self := none, first := some { href := "F" },
                        previous := none, next := none }
             current_page := some 1
             items_count := some 6
             embedded := { items := [1, 2, 3, 4, 5, 6] } } :=
  ⟨by decide, by decide,
    c7_drain_concatenates_pages_and_collapses_links followEx page1 [page2, page3] 2
      (by decide) (by decide)⟩

/-- C9: `appendRemainingPages` changes only the `_embedded.items` and `_links`
fields of the passed-in result: after accumulating the whole chain, the
fields `current_page` and `items_count` of the result still hold the values of the first page
(the source updates `options.response` in place; the embedding reflects the
in-place update as the returned record, all of whose other fields coincide
with those of the input). -/
theorem c9_append_preserves_page_fields [DecidableEq α]
    (follow : String → Results α) (resp : Results α) (pages : List (Results α))
    (fuel : Nat) (hchain : isChain follow resp pages = true)
    (hfuel : pages.length ≤ fuel) :
    ∃ res, appendRemainingPages follow fuel resp = some res ∧
      res.current_page = resp.current_page ∧
      res.items_count = resp.items_count := by
  refine ⟨_, appendLoop_chain_spec follow pages resp resp fuel hchain hfuel, rfl, rfl⟩

/-- Witness for C9 at the concrete three-page chain. -/
theorem c9_witness :
    isChain followEx page1 [page2, page3] = true ∧
    (∃ res, appendRemainingPages followEx 5 page1 = some res ∧
      res.current_page = page1.current_page ∧
      res.items_count = page1.items_count) :=
  ⟨by decide,
    c9_append_preserves_page_fields followEx page1 [page2, page3] 5 (by decide) (by decide)⟩

/-! ## Helper lemmas: object-spread header merging -/

/-- A key present in the overlay wins after an object spread. -/
theorem lookup_spreadObj_of_overlay_some (base overlay : List (String × String))
    (k : String) (v : String) (h : overlay.lookup k = some v) :
    (spreadObj base overlay).lookup k = some v := by
  induction base with
  | nil => simpa [spreadObj] using h
  | cons kv rest ih =>
    by_cases hkv : (overlay.lookup kv.1).isNone
    · have hne : (k == kv.1) = false := by
        rcases hbeq : k == kv.1 with _ | _
        · rfl
        · have : k = kv.1 := by simpa using hbeq
          rw [this] at h
          simp [h] at hkv
      simpa [spreadObj, List.filter_cons, hkv, List.lookup, hne] using ih
    · simpa [spreadObj, List.filter_cons, hkv] using ih

/-- A key absent from the overlay falls through to the base object after an
object spread. -/
theorem lookup_spreadObj_of_overlay_none (base overlay : List (String × String))
    (k : String) (h : overlay.lookup k = none) :
    (spreadObj base overlay).lookup k = base.lookup k := by
  induction base with
  | nil => simpa [spreadObj] using h
  | cons kv rest ih =>
    by_cases hkv : (overlay.lookup kv.1).isNone
    · rcases hbeq : k == kv.1 with _ | _
      · simpa [spreadObj, List.filter_cons, hkv, List.lookup, hbeq] using ih
      · simp [spreadObj, List.filter_cons, hkv, List.lookup, hbeq]
    · have hne : (k == kv.1) = false := by
        rcases hbeq : k == kv.1 with _ | _
        · rfl
        · have : k = kv.1 := by simpa using hbeq
          rw [this] at h
          simp [h] at hkv
      simpa [spreadObj, List.filter_cons, hkv, List.lookup, hne] using ih

/-- C5 counterexample: a caller-supplied `Authorization` header overrides the
bearer header derived from the current Credential, because the caller headers
are spread after it; so the claim that caller headers cannot override
`Authorization` fails at this input. -/
theorem c5_counterexample_caller_overrides_authorization :
    (getRequestOptionsHeaders [("Accept", "application/json")] "tok"
        [("Authorization", "evil")]).lookup "Authorization" = some "evil" ∧
    mkAuthHeader "tok" = "Bearer tok" ∧
    ("evil" : String) ≠ "Bearer tok" := by
  refine ⟨rfl, rfl, by decide⟩

/-- C5 (amended): the headers built by `getRequestOptions` contain the
`Authorization` bearer header derived from the current Credential, and
caller-supplied headers are merged in after it, so they override it when they
contain an `Authorization` key; when the caller supplies no `Authorization`
header, the sent value is the derived bearer header. -/
theorem c5_amended_auth_header_when_not_overridden
    (defaultHeaders callerHeaders : List (String × String)) (token : String)
    (h : callerHeaders.lookup "Authorization" = none) :
    (getRequestOptionsHeaders defaultHeaders token callerHeaders).lookup "Authorization"
      = some (mkAuthHeader token) := by
  unfold getRequestOptionsHeaders
  rw [lookup_spreadObj_of_overlay_none _ _ _ h]
  exact lookup_spreadObj_of_overlay_some _ _ _ _ rfl

/-- Witness for the amended C5 at a concrete input. -/
theorem c5_witness :
    (([("X-Custom", "1")] : List (String × String)).lookup "Authorization" = none) ∧
    (getRequestOptionsHeaders [("Accept", "application/json")] "tok"
        [("X-Custom", "1")]).lookup "Authorization" = some (mkAuthHeader "tok") :=
  ⟨by decide,
    c5_amended_auth_header_when_not_overridden [("Accept", "application/json")]
      [("X-Custom", "1")] "tok" (by decide)⟩

/-! ## Helper lemmas: the retry loop -/

/-- Unfolding `requestFrom` when the attempt succeeds. -/
theorem requestFrom_eq_ok {transport : Nat → Except ErrVal String} {cfg : RetryConfig}
    {authHeader : Option String} {retryCount remaining : Nat} {d : String}
    (h : transport retryCount = .ok d) :
    requestFrom transport cfg authHeader retryCount remaining =
      { value := .ok d,
        attempts :=
          [{ authHeader := authHeader
             delayBefore := if 0 < retryCount then some (calculateDelay retryCount cfg)
               else none }] } := by
  simp [requestFrom, h]

/-- Unfolding `requestFrom` when the attempt fails non-retryably: the
transformed error is thrown at once, whatever the remaining budget. -/
theorem requestFrom_eq_err_nonretry {transport : Nat → Except ErrVal String}
    {cfg : RetryConfig} {authHeader : Option String} {retryCount remaining : Nat}
    {e : ErrVal} (h : transport retryCount = .error e)
    (hr : isRetryableError e = false) :
    requestFrom transport cfg authHeader retryCount remaining =
      { value := .error (transformError e),
        attempts :=
          [{ authHeader := authHeader
             delayBefore := if 0 < retryCount then some (calculateDelay retryCount cfg)
               else none }] } := by
  simp [requestFrom, h, hr]

/-- Unfolding `requestFrom` when the attempt fails retryably but the budget is
exhausted: the transformed last-seen error is thrown. -/
theorem requestFrom_eq_err_retry_zero {transport : Nat → Except ErrVal String}
    {cfg : RetryConfig} {authHeader : Option String} {retryCount : Nat}
    {e : ErrVal} (h : transport retryCount = .error e)
    (hr : isRetryableError e = true) :
    requestFrom transport cfg authHeader retryCount 0 =
      { value := .error (transformError e),
        attempts :=
          [{ authHeader := authHeader
             delayBefore := if 0 < retryCount then some (calculateDelay retryCount cfg)
               else none }] } := by
  simp [requestFrom, h, hr]

/-- Unfolding `requestFrom` when the attempt fails retryably with budget left:
the loop continues at the next `retryCount`. -/
theorem requestFrom_eq_err_retry_succ {transport : Nat → Except ErrVal String}
    {cfg : RetryConfig} {authHeader : Option String} {retryCount r : Nat}
    {e : ErrVal} (h : transport retryCount = .error e)
    (hr : isRetryableError e = true) :
    requestFrom transport cfg authHeader retryCount (r + 1) =
      { value := (requestFrom transport cfg authHeader (retryCount + 1) r).value,
        attempts :=
          { authHeader := authHeader
            delayBefore := if 0 < retryCount then some (calculateDelay retryCount cfg)
              else none } ::
            (requestFrom transport cfg authHeader (retryCount + 1) r).attempts } := by
  conv_lhs => rw [requestFrom]
  simp [h, hr]

/-- Every attempt record produced by the retry loop carries the single
`authHeader` computed before the loop, and the attempt with index `j` (made at
`retryCount = retryCount₀ + j`) is preceded by the backoff delay exactly when
its `retryCount` is positive. -/
theorem requestFrom_attempts_get (transport : Nat → Except ErrVal String)
    (cfg : RetryConfig) (authHeader : Option String) :
    ∀ (remaining retryCount j : Nat) (a : AttemptRecord),
      (requestFrom transport cfg authHeader retryCount remaining).attempts.get? j = some a →
      a = { authHeader := authHeader,
            delayBefore := if 0 < retryCount + j
              then some (calculateDelay (retryCount + j) cfg) else none } := by
  intro remaining
  induction remaining with
  | zero =>
    intro retryCount j a hget
    cases h : transport retryCount with
    | ok d =>
      rw [requestFrom_eq_ok h] at hget
      cases j with
      | zero => simpa using hget.symm
      | succ j => simp at hget
    | error e =>
      by_cases hr : isRetryableError e = true
      · rw [requestFrom_eq_err_retry_zero h hr] at hget
        cases j with
        | zero => simpa using hget.symm
        | succ j => simp at hget
      · rw [requestFrom_eq_err_nonretry h (by simpa using hr)] at hget
        cases j with
        | zero => simpa using hget.symm
        | succ j => simp at hget
  | succ r ih =>
    intro retryCount j a hget
    cases h : transport retryCount with
    | ok d =>
      rw [requestFrom_eq_ok h] at hget
      cases j with
      | zero => simpa using hget.symm
      | succ j => simp at hget
    | error e =>
      by_cases hr : isRetryableError e = true
      · rw [requestFrom_eq_err_retry_succ h hr] at hget
        cases j with
        | zero => simpa using hget.symm
        | succ j =>
          simp only [List.get?_cons_succ] at hget
          have := ih (retryCount + 1) j a hget
          have harith : retryCount + 1 + j = retryCount + (j + 1) := by omega
          rw [harith] at this
          exact this
      · rw [requestFrom_eq_err_nonretry h (by simpa using hr)] at hget
        cases j with
        | zero => simpa using hget.symm
        | succ j => simp at hget

/-- When every attempt fails with a retryable error, the loop makes exactly
one attempt per permitted iteration and throws the transformed error of the
last attempt. -/
theorem requestFrom_all_retryable (transport : Nat → Except ErrVal String)
    (cfg : RetryConfig) (authHeader : Option String)
    (h : ∀ n, ∃ e, transport n = .error e ∧ isRetryableError e = true) :
    ∀ (remaining retryCount : Nat),
      (requestFrom transport cfg authHeader retryCount remaining).attempts.length
        = remaining + 1 ∧
      ∀ e, transport (retryCount + remaining) = .error e →
        (requestFrom transport cfg authHeader retryCount remaining).value
          = .error (transformError e) := by
  intro remaining
  induction remaining with
  | zero =>
    intro retryCount
    obtain ⟨e, he, hr⟩ := h retryCount
    rw [requestFrom_eq_err_retry_zero he hr]
    refine ⟨rfl, ?_⟩
    intro e' he'
    rw [Nat.add_zero] at he'
    rw [he] at he'
    cases he'
    rfl
  | succ r ih =>
    intro retryCount
    obtain ⟨e, he, hr⟩ := h retryCount
    rw [requestFrom_eq_err_retry_succ he hr]
    constructor
    · simpa using (ih (retryCount + 1)).1
    · intro e' he'
      have harith : retryCount + 1 + r = retryCount + (r + 1) := by omega
      exact (ih (retryCount + 1)).2 e' (by rw [harith]; exact he')

/-- C2: evaluation at a failing input for the claimed 429 handling. The
`request` loop contains no 429-specific path: 429 is not in
`RETRYABLE_STATUS_CODES`, so with a `max429Retries` budget of 4 available and
a parseable `Retry-After` of 2 seconds on the response, the executor still
makes exactly one attempt, waits no delay at all, and raises the transformed
error immediately. -/
theorem c2_429_response_not_retried :
    isRetryableError err429 = false ∧
    429 ∉ RETRYABLE_STATUS_CODES ∧
    (request (fun _ => "t") transportAlways429 none (some cfg429Ex)).attempts.length = 1 ∧
    (request (fun _ => "t") transportAlways429 none (some cfg429Ex)).attempts.map
        (fun a => a.delayBefore) = [none] ∧
    (request (fun _ => "t") transportAlways429 none (some cfg429Ex)).value =
      .error (.akeneo { message := "Request failed with status code 429",
                        status := some 429 }) :=
  ⟨by decide, by decide, rfl, rfl, rfl⟩

/-- C3: with an effective retry config whose `maxRetries` is k and a transport
that fails every attempt with a received 500 response, the executor makes
exactly k+1 attempts and then raises the last-seen failure converted to an
`AkeneoError`. -/
theorem c3_always_500_makes_maxretries_plus_one_attempts
    (getToken : Nat → String) (transport : Nat → Except ErrVal String)
    (ir mrc : Option RetryConfig)
    (h500 : ∀ n, ∃ e ra, transport n = .error e ∧ e.isAxiosError = true ∧
      e.hasRequest = true ∧ e.response = some { status := 500, retryAfter := ra }) :
    (request getToken transport ir mrc).attempts.length
      = (getRetryConfig ir mrc).maxRetries + 1 ∧
    ∀ e, transport (getRetryConfig ir mrc).maxRetries = .error e →
      (request getToken transport ir mrc).value
        = .error (.akeneo (AkeneoError.fromAxiosError e)) := by
  have hret : ∀ n, ∃ e, transport n = .error e ∧ isRetryableError e = true := by
    intro n
    obtain ⟨e, ra, he, hax, hreq, hresp⟩ := h500 n
    exact ⟨e, he, by simp [isRetryableError, hax, hreq, hresp, RETRYABLE_STATUS_CODES]⟩
  have hmain := requestFrom_all_retryable transport (getRetryConfig ir mrc)
    (some (mkAuthHeader (getToken 0))) hret (getRetryConfig ir mrc).maxRetries 0
  constructor
  · simpa [request] using hmain.1
  · intro e he
    obtain ⟨e', ra, he', hax, hreq, hresp⟩ := h500 (getRetryConfig ir mrc).maxRetries
    have hee : e = e' := by
      rw [he] at he'
      exact Except.error.inj he'
    have htf : transformError e = .akeneo (AkeneoError.fromAxiosError e) := by
      simp [transformError, hee, hax]
    have hv := hmain.2 e (by simpa using he)
    simpa [request, htf] using hv

/-- Witness for C3: two retries configured, a transport always returning 500,
hence exactly three attempts and an `AkeneoError` with status 500. -/
theorem c3_witness :
    (request (fun _ => "t") transportAlways500 none (some cfgTwoRetries)).attempts.length
      = 3 ∧
    (request (fun _ => "t") transportAlways500 none (some cfgTwoRetries)).value
      = .error (.akeneo { message := "Request failed with status code 500",
                          status := some 500 }) := by
  have h := c3_always_500_makes_maxretries_plus_one_attempts (fun _ => "t")
    transportAlways500 none (some cfgTwoRetries)
    (fun _ => ⟨err500, none, rfl, rfl, rfl, rfl⟩)
  exact ⟨h.1, h.2 err500 rfl⟩

/-- C6 counterexample: with a token cache whose token changes after the first
fetch and a transport that fails the first attempt with a 500, the retried
attempt is sent with the authorization header computed before the first
attempt (from the old token), not one re-obtained from the cache; so the claim
that the Credential is re-obtained before every retried attempt fails at this
input. -/
theorem c6_counterexample_retry_reuses_initial_token :
    (request tokenSeq transport500Once none (some cfgOneRetry)).attempts.map
        (fun a => a.authHeader) = [some "Bearer a", some "Bearer a"] ∧
    mkAuthHeader (tokenSeq 1) = "Bearer b" ∧
    (some "Bearer a" : Option String) ≠ some "Bearer b" :=
  ⟨rfl, rfl, by decide⟩

/-- C6 (amended): within one `request` call the request options, including the
`Authorization` header, are computed once from the Credential fetched before
the first attempt; every attempt, including every retried one, is sent with
that same header, and each retried attempt (index j with 0 < j) first waits
the backoff delay `calculateDelay j` of the effective retry config. -/
theorem c6_amended_single_token_fetch_and_backoff
    (getToken : Nat → String) (transport : Nat → Except ErrVal String)
    (ir mrc : Option RetryConfig) :
    ∀ (j : Nat) (a : AttemptRecord),
      (request getToken transport ir mrc).attempts.get? j = some a →
      a.authHeader = some (mkAuthHeader (getToken 0)) ∧
      a.delayBefore
        = (if 0 < j then some (calculateDelay j (getRetryConfig ir mrc)) else none) := by
  intro j a hget
  have h := requestFrom_attempts_get transport (getRetryConfig ir mrc)
    (some (mkAuthHeader (getToken 0))) (getRetryConfig ir mrc).maxRetries 0 j a
    (by simpa [request] using hget)
  rw [h]
  constructor
  · rfl
  · simp

/-- Witness for the amended C6: the second attempt of a concrete retried run
carries the header from the initial token fetch and the first backoff delay. -/
theorem c6_witness :
    ((request tokenSeq transport500Once none (some cfgOneRetry)).attempts.get? 1
      = some { authHeader := some "Bearer a", delayBefore := some 300 }) ∧
    ((some "Bearer a" : Option String) = some (mkAuthHeader (tokenSeq 0)) ∧
      (some 300 : Option Nat)
        = (if 0 < 1 then some (calculateDelay 1 (getRetryConfig none (some cfgOneRetry)))
            else none)) :=
  ⟨rfl, c6_amended_single_token_fetch_and_backoff tokenSeq transport500Once none
    (some cfgOneRetry) 1 { authHeader := some "Bearer a", delayBefore := some 300 } rfl⟩

/-- C8: error classification. A value without the axios marker is retryable;
an axios error lacking the sent-request marker or the received-response marker
is retryable; an axios error with a received response is retryable exactly
when its status lies in the set 500, 501, 502, 503, 504; and on a 400 response
exactly one attempt is made before the transformed error is raised, whatever
the retry budget. -/
theorem c8_error_classification (e : ErrVal) :
    (e.isAxiosError = false → isRetryableError e = true) ∧
    (e.isAxiosError = true → (e.hasRequest = false ∨ e.response = none) →
      isRetryableError e = true) ∧
    (∀ r : RespInfo, e.isAxiosError = true → e.hasRequest = true →
      e.response = some r →
      (isRetryableError e = true ↔ r.status ∈ [500, 501, 502, 503, 504])) ∧
    (∀ (transport : Nat → Except ErrVal String) (getToken : Nat → String)
        (ir mrc : Option RetryConfig),
      e.isAxiosError = true → e.hasRequest = true →
      (∃ ra, e.response = some { status := 400, retryAfter := ra }) →
      transport 0 = .error e →
      (request getToken transport ir mrc).attempts.length = 1 ∧
      (request getToken transport ir mrc).value
        = .error (.akeneo (AkeneoError.fromAxiosError e))) := by
  refine ⟨?_, ?_, ?_, ?_⟩
  · intro h
    simp [isRetryableError, h]
  · intro hax h
    rcases h with h | h
    · simp [isRetryableError, hax, h]
    · cases hreq : e.hasRequest <;> simp [isRetryableError, hax, h, hreq]
  · intro r hax hreq hresp
    simp [isRetryableError, hax, hreq, hresp, RETRYABLE_STATUS_CODES]
  · intro transport getToken ir mrc hax hreq hresp htr
    obtain ⟨ra, hresp⟩ := hresp
    have hnr : isRetryableError e = false := by
      simp [isRetryableError, hax, hreq, hresp, RETRYABLE_STATUS_CODES]
    have hrun := @requestFrom_eq_err_nonretry transport (getRetryConfig ir mrc)
      (some (mkAuthHeader (getToken 0))) 0 (getRetryConfig ir mrc).maxRetries e htr hnr
    constructor
    · simp [request, hrun]
    · simp [request, hrun, transformError, hax]

/-- Witness for C8 at concrete errors: a non-axios value, a 500 response and a
400 response (one attempt, raised immediately). -/
theorem c8_witness :
    isRetryableError errPlain = true ∧
    (isRetryableError err500 = true ↔ 500 ∈ [500, 501, 502, 503, 504]) ∧
    (request (fun _ => "t") transportAlways400 none (some cfgTwoRetries)).attempts.length
      = 1 := by
  refine ⟨(c8_error_classification errPlain).1 rfl, ?_, ?_⟩
  · exact (c8_error_classification err500).2.2.1 { status := 500 } rfl rfl rfl
  · exact ((c8_error_classification err400).2.2.2 transportAlways400 (fun _ => "t")
      none (some cfgTwoRetries) rfl rfl ⟨none, rfl⟩ rfl).1

/-- C10: `transformError` returns a value lacking the axios-error marker
unchanged, so a `request` whose failures are such raw values raises the raw
value itself, not an `AkeneoError`. -/
theorem c10_non_axios_error_returned_unchanged (e : ErrVal)
    (h : e.isAxiosError = false) :
    transformError e = .raw e ∧
    ∀ (getToken : Nat → String) (ir mrc : Option RetryConfig),
      (request getToken (fun _ => .error e) ir mrc).value = .error (.raw e) := by
  have htf : transformError e = .raw e := by simp [transformError, h]
  refine ⟨htf, ?_⟩
  intro getToken ir mrc
  have hret : ∀ n : Nat, ∃ e',
      (fun _ : Nat => (Except.error e : Except ErrVal String)) n = .error e' ∧
      isRetryableError e' = true :=
    fun _ => ⟨e, rfl, by simp [isRetryableError, h]⟩
  have hmain := requestFrom_all_retryable (fun _ => .error e) (getRetryConfig ir mrc)
    (some (mkAuthHeader (getToken 0))) hret (getRetryConfig ir mrc).maxRetries 0
  have hv := hmain.2 e rfl
  simpa [request, htf] using hv

/-- Witness for C10: a concrete non-axios value flows through `transformError`
and out of `request` unchanged. -/
theorem c10_witness :
    errPlain.isAxiosError = false ∧
    transformError errPlain = .raw errPlain ∧
    (request (fun _ => "t") (fun _ => .error errPlain) none none).value
      = .error (.raw errPlain) := by
  have h := c10_non_axios_error_returned_unchanged errPlain rfl
  exact ⟨rfl, h.1, h.2 (fun _ => "t") none none⟩

/-- C1: evaluation at a failing input for the claimed single-flight refresh.
Two `getClientGrant()` calls issued in the same synchronous tick both await
the initially-resolved `grantPromise` before either has replaced it; when the
microtasks run, each finds no cached grant and starts its own credential
exchange, so the exchange is invoked twice and the two callers resolve to
different Credentials. -/
theorem c1_same_tick_calls_start_two_exchanges :
    (runScript c1Script (initAuthSim 1800 0)).exchangeCount = 2 ∧
    (runScript c1Script (initAuthSim 1800 0)).tasks
      = [.done (.ok grantA), .done (.ok grantB)] ∧
    grantA ≠ grantB :=
  ⟨rfl, rfl, by decide⟩

/-- C4: evaluation at a failing input for the claimed refresh-failure
recovery. A first call caches a grant that lies inside the refresh lookahead
window; a second call starts a refresh and a third call awaits the same
in-flight refresh; the exchange rejects. The rejection does propagate to both
waiters and the previously cached Credential is left unchanged, but the
rejected promise remains stored in `grantPromise`, so a fourth call issued
afterwards rejects immediately with the same stored error and no fresh
exchange is started (the exchange count stays at 2). -/
theorem c4_failed_refresh_poisons_subsequent_calls :
    (runScript c4Script (initAuthSim 1800 0)).exchangeCount = 2 ∧
    (runScript c4Script (initAuthSim 1800 0)).tasks
      = [.done (.ok grant0), .done (.err "exchange-failed"),
         .done (.err "exchange-failed"), .done (.err "exchange-failed")] ∧
    (runScript c4Script (initAuthSim 1800 0)).grant = some grant0 :=
  ⟨rfl, rfl, rfl⟩
